import Mathlib

/-!
# messynotes: external-tool resolution and subprocess execution

A shallow embedding of `internal/tools.go`.

* The resolvers `GetBrowser`, `GetEditor`, `GetHugo`, `GetGit` read the
  configuration through `viper.GetString`, the environment through `os.Getenv`
  and the search path through `exec.LookPath`.  These three are the program's
  inputs; they are passed explicitly as functions.
* `Run` starts a process through `exec.Command(...).Run()`.  What the operating
  system does with the request is an input as well (`System`).
* `Prompt` reads one line from standard input; the result of the read is its
  input.

Go's `(string, error)` pairs are structures with an `err : Option String`
field, `none` standing for the nil error.  A run-time panic is an explicit
result (`Outcome.panicked`).
-/

set_option autoImplicit false

namespace MessyNotes

/-! ## Inputs -/

/-- The pair `(string, error)` returned by `exec.LookPath`; `err = none` is the nil error. -/
structure LookResult where
  path : String
  err : Option String
  deriving DecidableEq, Repr

/-- The search-path lookup `exec.LookPath`, as a function of the name looked up. -/
abbrev LookPath := String → LookResult

/-- What `exec.LookPath` returns with a nil error, on every platform and library
version: the name itself when it holds a path separator, and otherwise a
directory of `PATH` (`.` for an empty entry) joined to the name; in both cases
a non-empty path. -/
def NilErrorHasPath (look : LookPath) : Prop :=
  ∀ name, (look name).err = none → (look name).path ≠ ""

/-- What `exec.LookPath` returns for the empty name: `validateLookPath` rejects
the names `""`, `.` and `..` with `ErrNotFound` before any search. -/
def EmptyNameNotFound (look : LookPath) : Prop :=
  (look "").err ≠ none

/-- The configuration store read with `viper.GetString(key)`; an unset key reads as `""`. -/
abbrev Viper := String → String

/-- The process environment read with `os.Getenv(key)`; an unset variable reads as `""`. -/
abbrev Environ := String → String

/-- The pair `(string, error)` returned by a resolver; `err = none` is the nil error. -/
structure Resolved where
  path : String
  err : Option String
  deriving DecidableEq, Repr

/-- The loop test `err == nil && browser != ""` of `GetBrowser` and `GetEditor`. -/
def Hit (r : LookResult) : Prop := r.err = none ∧ r.path ≠ ""

instance (r : LookResult) : Decidable (Hit r) := by
  unfold Hit
  exact inferInstance

/-! ## Tool resolver -/

/-- The `for _, cmd := range ...` loop that `GetBrowser` and `GetEditor` share
word for word.  `cur` is the loop variable `browser` / `editor` (it keeps the
path of the last lookup), `msg` the text of `errors.New` after the loop. -/
def lookLoop (look : LookPath) (msg : String) : List String → String → Resolved
  | [], cur => ⟨cur, some msg⟩
  | cmd :: rest, _ =>
    if Hit (look cmd) then ⟨(look cmd).path, none⟩
    else lookLoop look msg rest (look cmd).path

/-- Embedding of `GetBrowser` (tools.go, lines 47-67). -/
def GetBrowser (cfg : Viper) (look : LookPath) : Resolved :=
  lookLoop look "Could not find a way to open a browser"
    [cfg "browser", "open", "xdg-open", "x-www-browser", "firefox",
      "google-chrome-stable", "chromium-browser"] ""

/-- Embedding of `GetEditor` (tools.go, lines 69-88). -/
def GetEditor (cfg : Viper) (env : Environ) (look : LookPath) : Resolved :=
  lookLoop look "Could not find a text editor"
    [cfg "editor", env "VISUAL", env "EDITOR", "editor", "vi", "nano"] ""

/-- Embedding of `GetHugo` (tools.go, lines 90-96): only `err != nil` is tested. -/
def GetHugo (cfg : Viper) (look : LookPath) : Resolved :=
  if (look (cfg "hugo")).err ≠ none then ⟨"", some "Could not find hugo executable"⟩
  else ⟨(look (cfg "hugo")).path, none⟩

/-- Embedding of `GetGit` (tools.go, lines 98-104): only `err != nil` is tested. -/
def GetGit (cfg : Viper) (look : LookPath) : Resolved :=
  if (look (cfg "git")).err ≠ none then ⟨"", some "Could not find git executable"⟩
  else ⟨(look (cfg "git")).path, none⟩

/-! ## Process launcher -/

/-- How a started process ended (`os.ProcessState`). -/
inductive ProcessState where
  | exited (status : Nat)
  | signaled (sig : Nat)
  deriving DecidableEq, Repr

/-- What the operating system does with a request to start a program and wait
for it: the start fails, or the process runs, writes to its two output streams
and ends. -/
inductive Spawn where
  | launchFailure (reason : String)
  | ran (state : ProcessState) (stdout : String) (stderr : String)
  deriving DecidableEq, Repr

/-- The operating system seen from `exec.Cmd`: executable path and argument vector to outcome. -/
abbrev System := String → List String → Spawn

/-- The type `exec.ExitError`: the process state and the field `Stderr`. -/
structure ExitError where
  state : ProcessState
  Stderr : String
  deriving DecidableEq, Repr

/-- The method `(*ExitError).ExitCode`: the exit status, or -1 for a process ended by a signal. -/
def ExitError.ExitCode (e : ExitError) : Int :=
  match e.state with
  | .exited n => (n : Int)
  | .signaled _ => -1

/-- The dynamic type of a non-nil `error` returned by `(*exec.Cmd).Run`. -/
inductive GoError where
  | exitError (e : ExitError)
  | other (text : String)
  deriving DecidableEq, Repr

/-- The fields of `exec.Cmd` that `exec.Command` fills in; `Stdin`, `Stdout` and
`Stderr` are left nil. -/
structure Cmd where
  Path : String
  Args : List String
  deriving DecidableEq, Repr

/-- The constructor `exec.Command(name, arg...)`. -/
def Command (name : String) (arg : List String) : Cmd :=
  ⟨name, name :: arg⟩

/-- The method `(*exec.Cmd).Run` of the Go standard library.  With `Stderr` nil
the child's error stream is connected to the null device; `ExitError.Stderr`
is filled in by `(*exec.Cmd).Output` only, so the error `Run` returns carries
an empty `Stderr`.  A start failure is an error of another type than
`*exec.ExitError` (`*fs.PathError`, `*exec.Error`). -/
def Cmd.Run (sys : System) (c : Cmd) : Option GoError :=
  match sys c.Path c.Args with
  | .launchFailure reason => some (.other reason)
  | .ran (.exited 0) _ _ => none
  | .ran state _ _ => some (.exitError ⟨state, ""⟩)

/-- The type `RunError` (tools.go, lines 207-211). -/
structure RunError where
  Output : String
  ExitCode : Int
  Tool : String
  deriving DecidableEq, Repr

/-- A Go call either returns a value or panics. -/
inductive Outcome (α : Type) where
  | returned (value : α)
  | panicked (text : String)
  deriving DecidableEq, Repr

/-- Embedding of `Run` (tools.go, lines 219-232).  `args[0]` panics on an empty
slice, and the unchecked type assertion `err.(*exec.ExitError)` panics when
the error has another dynamic type. -/
def Run (sys : System) (args : List String) : Outcome (Option RunError) :=
  match args with
  | [] => .panicked "index out of range [0] with length 0"
  | cmd :: cmdArgs =>
    match Cmd.Run sys (Command cmd cmdArgs) with
    | none => .returned none
    | some (.exitError real_err) =>
      .returned (some ⟨real_err.Stderr, real_err.ExitCode, cmd⟩)
    | some (.other _) =>
      .panicked "interface conversion: error is not *exec.ExitError"

/-! ## Prompt -/

/-- The predicate `unicode.IsSpace`, which `strings.TrimSpace` trims by: the
code points with the Unicode property White_Space. -/
def isSpace (c : Char) : Bool :=
  let n := c.toNat
  (0x09 ≤ n && n ≤ 0x0D) || n == 0x20 || n == 0x85 || n == 0xA0 || n == 0x1680 ||
    (0x2000 ≤ n && n ≤ 0x200A) || n == 0x2028 || n == 0x2029 || n == 0x202F ||
    n == 0x205F || n == 0x3000

/-- The function `strings.TrimSpace`: leading and trailing white space removed. -/
def TrimSpace (s : List Char) : List Char :=
  ((s.dropWhile isSpace).reverse.dropWhile isSpace).reverse

/-- The function `strings.ToLower`.  On ASCII it maps `A`-`Z` to `a`-`z`; above
ASCII it applies the Unicode case tables of the Go library, which are taken as
the parameter `caseTable`. -/
def ToLower (caseTable : Char → Char) (s : List Char) : List Char :=
  s.map fun c =>
    if c.toNat < 0x80 then
      (if 0x41 ≤ c.toNat ∧ c.toNat ≤ 0x5A then Char.ofNat (c.toNat + 0x20) else c)
    else caseTable c

/-- The first byte of the UTF-8 encoding of a code point. -/
def leadByte (c : Char) : Nat :=
  let n := c.toNat
  if n < 0x80 then n
  else if n < 0x800 then 0xC0 + n / 0x40
  else if n < 0x10000 then 0xE0 + n / 0x1000
  else 0xF0 + n / 0x40000

/-- The index expression `s[0]` on a Go string (a byte sequence, here the
UTF-8 encoding of a list of code points): `none` stands for the run-time panic
on the empty string. -/
def byteAt0 (s : List Char) : Option Nat :=
  match s with
  | [] => none
  | c :: _ => some (leadByte c)

/-- The pair `(string, error)` returned by `buf.ReadString` on standard input. -/
structure ReadResult where
  resp : List Char
  err : Option String
  deriving DecidableEq, Repr

/-- How a call of `Prompt` ends: it returns, it panics, or it ends the program
with `os.Exit`. -/
inductive PromptOutcome where
  | returned (answer : Bool)
  | panicked (text : String)
  | exit (status : Nat)
  deriving DecidableEq, Repr

/-- Embedding of `Prompt` (tools.go, lines 193-205).  The printing is left out;
`read` is what `buf.ReadString` returned. -/
def Prompt (caseTable : Char → Char) (read : ReadResult) : PromptOutcome :=
  if read.err ≠ none then .exit 1
  else
    match byteAt0 (ToLower caseTable (TrimSpace read.resp)) with
    | none => .panicked "index out of range [0] with length 0"
    | some b => .returned (b == 0x79)

/-! ## Concrete inputs

Search paths, configurations, environments and systems at which the theorems
below are evaluated. -/

/-- A search path on which only `vi` and `nano` are found. -/
def lookViNano : LookPath := fun name =>
  if name = "vi" then ⟨"/usr/bin/vi", none⟩
  else if name = "nano" then ⟨"/usr/bin/nano", none⟩
  else ⟨"", some "executable file not found in $PATH"⟩

/-- A search path without `firefox` on which both `open` and `xdg-open` are found. -/
def lookOpenXdg : LookPath := fun name =>
  if name = "open" then ⟨"/usr/bin/open", none⟩
  else if name = "xdg-open" then ⟨"/usr/bin/xdg-open", none⟩
  else ⟨"", some "executable file not found in $PATH"⟩

/-- A search path without `firefox` and `open` on which `xdg-open` is found. -/
def lookXdg : LookPath := fun name =>
  if name = "xdg-open" then ⟨"/usr/bin/xdg-open", none⟩
  else ⟨"", some "executable file not found in $PATH"⟩

/-- A lookup that finds `/usr/bin/vim` and nothing else. -/
def lookVim : LookPath := fun name =>
  if name = "/usr/bin/vim" then ⟨"/usr/bin/vim", none⟩
  else ⟨"", some "executable file not found in $PATH"⟩

/-- The environment in which `EDITOR` is `/usr/bin/vim` and nothing else is set. -/
def envEditorVim : Environ := fun key => if key = "EDITOR" then "/usr/bin/vim" else ""

/-- A search path on which `hugo` is missing while every default editor and
browser launcher, and `git`, would resolve. -/
def lookAllButHugo : LookPath := fun name =>
  if name = "hugo" then ⟨"", some "executable file not found in $PATH"⟩
  else ⟨"/usr/bin/" ++ name, none⟩

/-- The configuration that names `hugo` and `git` by their plain names. -/
def cfgPlain : Viper := fun key =>
  if key = "hugo" then "hugo" else if key = "git" then "git" else ""

/-- A search path on which nothing is found. -/
def lookNothing : LookPath := fun _ => ⟨"", some "executable file not found in $PATH"⟩

/-- A search path on which `git` is found and nothing else. -/
def lookGit : LookPath := fun name =>
  if name = "git" then ⟨"/usr/bin/git", none⟩
  else ⟨"", some "executable file not found in $PATH"⟩

/-- A system on which every program starts, prints a line and exits with status 0. -/
def sysClean : System := fun _ _ => .ran (.exited 0) "On branch main" ""

/-- A system on which every program starts, writes `oops` to its error stream
and exits with status 3. -/
def sysExit3 : System := fun _ _ => .ran (.exited 3) "" "oops\n"

/-- A system on which no program can be started. -/
def sysMissing : System := fun path _ =>
  .launchFailure ("fork/exec " ++ path ++ ": no such file or directory")

/-! ## The resolver loop -/

/-- The loop returns the lookup of the first candidate that is a hit, whatever follows it. -/
theorem lookLoop_first_hit (look : LookPath) (msg : String) (c : String) (post : List String) :
    ∀ (pre : List String) (cur : String), (∀ d ∈ pre, ¬ Hit (look d)) → Hit (look c) →
      lookLoop look msg (pre ++ c :: post) cur = ⟨(look c).path, none⟩ := by
  intro pre
  induction pre with
  | nil =>
    intro cur _ hc
    simp [lookLoop, hc]
  | cons d pre ih =>
    intro cur hpre hc
    have hd : ¬ Hit (look d) := hpre d (List.mem_cons_self d pre)
    have hrest : ∀ e ∈ pre, ¬ Hit (look e) := fun e he => hpre e (List.mem_cons_of_mem d he)
    simp only [List.cons_append, lookLoop, hd, if_false]
    exact ih (look d).path hrest hc

/-- Without a hit among the candidates, the loop ends with the error built after it. -/
theorem lookLoop_no_hit (look : LookPath) (msg : String) :
    ∀ (cs : List String) (cur : String), (∀ d ∈ cs, ¬ Hit (look d)) →
      (lookLoop look msg cs cur).err = some msg := by
  intro cs
  induction cs with
  | nil =>
    intro cur _
    rfl
  | cons d cs ih =>
    intro cur h
    have hd : ¬ Hit (look d) := h d (List.mem_cons_self d cs)
    simp only [lookLoop, hd, if_false]
    exact ih (look d).path fun e he => h e (List.mem_cons_of_mem d he)

/-- The error of the loop is nil or the one message it was given. -/
theorem lookLoop_err_cases (look : LookPath) (msg : String) :
    ∀ (cs : List String) (cur : String),
      (lookLoop look msg cs cur).err = none ∨ (lookLoop look msg cs cur).err = some msg := by
  intro cs
  induction cs with
  | nil =>
    intro cur
    exact Or.inr rfl
  | cons d cs ih =>
    intro cur
    by_cases hd : Hit (look d)
    · left
      simp [lookLoop, hd]
    · simp only [lookLoop, hd, if_false]
      exact ih (look d).path

/-- A nil error comes from a first hit only. -/
theorem lookLoop_nil_err (look : LookPath) (msg : String) :
    ∀ (cs : List String) (cur : String), (lookLoop look msg cs cur).err = none →
      ∃ pre c post, cs = pre ++ c :: post ∧ (∀ d ∈ pre, ¬ Hit (look d)) ∧ Hit (look c) ∧
        lookLoop look msg cs cur = ⟨(look c).path, none⟩ := by
  intro cs
  induction cs with
  | nil =>
    intro cur h
    simp [lookLoop] at h
  | cons d cs ih =>
    intro cur h
    by_cases hd : Hit (look d)
    · refine ⟨[], d, cs, rfl, ?_, hd, ?_⟩
      · intro e he
        cases he
      · simp [lookLoop, hd]
    · simp only [lookLoop, hd, if_false] at h ⊢
      obtain ⟨pre, c, post, hcs, hpre, hc, hres⟩ := ih (look d).path h
      refine ⟨d :: pre, c, post, by simp [hcs], ?_, hc, hres⟩
      intro e he
      rcases List.mem_cons.mp he with rfl | he
      · exact hd
      · exact hpre e he

/-! ## Candidate order: first hit wins -/

/-- Claim C1.  `GetEditor` walks `[editor override, VISUAL, EDITOR, "editor", "vi",
"nano"]` and `GetBrowser` walks `[browser override, "open", "xdg-open",
"x-www-browser", "firefox", "google-chrome-stable", "chromium-browser"]` in that
order: whenever the list splits as `pre ++ c :: post` with no candidate of `pre`
a hit and `c` a hit, the result is the path looked up for `c` with the nil
error, whatever the candidates of `post` resolve to; and a nil error is only
ever returned in this way. -/
theorem GetEditor_GetBrowser_first_hit (cfg : Viper) (env : Environ) (look : LookPath) :
    (∀ pre c post,
        [cfg "editor", env "VISUAL", env "EDITOR", "editor", "vi", "nano"] = pre ++ c :: post →
        (∀ d ∈ pre, ¬ Hit (look d)) → Hit (look c) →
        GetEditor cfg env look = ⟨(look c).path, none⟩) ∧
    (∀ pre c post,
        [cfg "browser", "open", "xdg-open", "x-www-browser", "firefox",
          "google-chrome-stable", "chromium-browser"] = pre ++ c :: post →
        (∀ d ∈ pre, ¬ Hit (look d)) → Hit (look c) →
        GetBrowser cfg look = ⟨(look c).path, none⟩) ∧
    ((GetEditor cfg env look).err = none →
        ∃ pre c post,
          [cfg "editor", env "VISUAL", env "EDITOR", "editor", "vi", "nano"] = pre ++ c :: post ∧
          (∀ d ∈ pre, ¬ Hit (look d)) ∧ Hit (look c) ∧
          GetEditor cfg env look = ⟨(look c).path, none⟩) ∧
    ((GetBrowser cfg look).err = none →
        ∃ pre c post,
          [cfg "browser", "open", "xdg-open", "x-www-browser", "firefox",
            "google-chrome-stable", "chromium-browser"] = pre ++ c :: post ∧
          (∀ d ∈ pre, ¬ Hit (look d)) ∧ Hit (look c) ∧
          GetBrowser cfg look = ⟨(look c).path, none⟩) := by
  refine ⟨?_, ?_, ?_, ?_⟩
  · intro pre c post hsplit hpre hc
    unfold GetEditor
    rw [hsplit]
    exact lookLoop_first_hit look _ c post pre "" hpre hc
  · intro pre c post hsplit hpre hc
    unfold GetBrowser
    rw [hsplit]
    exact lookLoop_first_hit look _ c post pre "" hpre hc
  · intro h
    exact lookLoop_nil_err look _ _ "" h
  · intro h
    exact lookLoop_nil_err look _ _ "" h

/-- Claim C1 at a concrete input: no override, no environment value, `vi` and
`nano` both on the search path; the editor is `vi`, the earlier of the two. -/
theorem GetEditor_GetBrowser_first_hit_witness :
    GetEditor (fun _ => "") (fun _ => "") lookViNano = ⟨"/usr/bin/vi", none⟩ :=
  (GetEditor_GetBrowser_first_hit (fun _ => "") (fun _ => "") lookViNano).1
    ["", "", "", "editor"] "vi" ["nano"] rfl (by decide) (by decide)

/-! ## The two end-to-end scenarios -/

/-- Claim C6 as stated fails: with the override `firefox` missing and `xdg-open`
present, `GetBrowser` still returns the path of `open` when that one is present
too, since `"open"` stands before `"xdg-open"` in the candidate list. -/
theorem GetBrowser_xdg_open_counterexample :
    ¬ ∀ (cfg : Viper) (look : LookPath),
        cfg "browser" = "firefox" → (look "firefox").err ≠ none → Hit (look "xdg-open") →
        GetBrowser cfg look = ⟨(look "xdg-open").path, none⟩ := by
  intro h
  have h1 := h (fun _ => "firefox") lookOpenXdg rfl (by decide) (by decide)
  revert h1
  decide

/-- Claim C6, amended.  When the browser override is `firefox`, the lookup of
`firefox` fails, the lookup of `open` is no hit (it fails or gives the empty
path) and the lookup of `xdg-open` succeeds with a non-empty path, `GetBrowser`
returns the path of `xdg-open` with the nil error. -/
theorem GetBrowser_falls_through_to_xdg_open (cfg : Viper) (look : LookPath)
    (hcfg : cfg "browser" = "firefox") (hff : (look "firefox").err ≠ none)
    (hopen : ¬ Hit (look "open")) (hxdg : Hit (look "xdg-open")) :
    GetBrowser cfg look = ⟨(look "xdg-open").path, none⟩ := by
  have hff2 : ¬ Hit (look "firefox") := fun hh => hff hh.1
  unfold GetBrowser
  rw [hcfg]
  simp [lookLoop, hff2, hopen, hxdg]

/-- Claim C6, amended, at a concrete input: `xdg-open` is the only browser launcher found. -/
theorem GetBrowser_falls_through_to_xdg_open_witness :
    GetBrowser (fun _ => "firefox") lookXdg = ⟨"/usr/bin/xdg-open", none⟩ :=
  GetBrowser_falls_through_to_xdg_open (fun _ => "firefox") lookXdg rfl (by decide)
    (by decide) (by decide)

/-- Claim C7.  When the editor override is empty, `VISUAL` reads as the empty
string, `EDITOR` is `/usr/bin/vim` and the lookup of `/usr/bin/vim` succeeds
with `/usr/bin/vim`, `GetEditor` returns `/usr/bin/vim` with the nil error,
whatever `editor`, `vi` and `nano` resolve to.  The lookup is `exec.LookPath`,
which does not find the empty name. -/
theorem GetEditor_EDITOR_vim (cfg : Viper) (env : Environ) (look : LookPath)
    (hlook : EmptyNameNotFound look)
    (hcfg : cfg "editor" = "") (hvis : env "VISUAL" = "") (hed : env "EDITOR" = "/usr/bin/vim")
    (hvim : look "/usr/bin/vim" = ⟨"/usr/bin/vim", none⟩) :
    GetEditor cfg env look = ⟨"/usr/bin/vim", none⟩ := by
  have hempty : ¬ Hit (look "") := fun hh => hlook hh.1
  have hhit : Hit (look "/usr/bin/vim") := by
    rw [hvim]
    decide
  unfold GetEditor
  rw [hcfg, hvis, hed]
  simp only [lookLoop, hempty, hhit, if_true, if_false]
  rw [hvim]

/-- Claim C7 at a concrete input: only `/usr/bin/vim` is found. -/
theorem GetEditor_EDITOR_vim_witness :
    GetEditor (fun _ => "") envEditorVim lookVim = ⟨"/usr/bin/vim", none⟩ :=
  GetEditor_EDITOR_vim (fun _ => "") envEditorVim lookVim (by unfold EmptyNameNotFound; decide)
    rfl rfl rfl (by decide)

/-! ## Single-candidate roles -/

/-- Claim C5.  `GetHugo` and `GetGit` consult the configured name only: each
returns its not-found error exactly when the lookup of that one name fails, and
any other configuration and lookup function that agree on that name and its
lookup give the same result, whatever else resolves. -/
theorem GetHugo_GetGit_single_candidate (cfg : Viper) (look : LookPath) :
    ((GetHugo cfg look).err = some "Could not find hugo executable" ↔
        (look (cfg "hugo")).err ≠ none) ∧
    ((GetHugo cfg look).err = none ↔ (look (cfg "hugo")).err = none) ∧
    ((GetGit cfg look).err = some "Could not find git executable" ↔
        (look (cfg "git")).err ≠ none) ∧
    ((GetGit cfg look).err = none ↔ (look (cfg "git")).err = none) ∧
    (∀ (cfg2 : Viper) (look2 : LookPath), cfg2 "hugo" = cfg "hugo" →
        look2 (cfg "hugo") = look (cfg "hugo") → GetHugo cfg2 look2 = GetHugo cfg look) ∧
    (∀ (cfg2 : Viper) (look2 : LookPath), cfg2 "git" = cfg "git" →
        look2 (cfg "git") = look (cfg "git") → GetGit cfg2 look2 = GetGit cfg look) := by
  refine ⟨?_, ?_, ?_, ?_, ?_, ?_⟩
  · unfold GetHugo
    by_cases h : (look (cfg "hugo")).err = none <;> simp [h]
  · unfold GetHugo
    by_cases h : (look (cfg "hugo")).err = none <;> simp [h]
  · unfold GetGit
    by_cases h : (look (cfg "git")).err = none <;> simp [h]
  · unfold GetGit
    by_cases h : (look (cfg "git")).err = none <;> simp [h]
  · intro cfg2 look2 hc hl
    unfold GetHugo
    rw [hc, hl]
  · intro cfg2 look2 hc hl
    unfold GetGit
    rw [hc, hl]

/-- Claim C5 at a concrete input: `hugo` is missing and everything else
resolves; `GetHugo` fails all the same. -/
theorem GetHugo_GetGit_single_candidate_witness :
    (GetHugo cfgPlain lookAllButHugo).err = some "Could not find hugo executable" :=
  (GetHugo_GetGit_single_candidate cfgPlain lookAllButHugo).1.mpr (by decide)

/-! ## The not-found errors -/

/-- Claim C8.  Each resolver's error is either nil or one fixed message for its
role, whatever the configuration, environment and lookup; it is that message
exactly when no candidate resolves; and the four messages differ pairwise. -/
theorem resolver_error_names_role_only (cfg : Viper) (env : Environ) (look : LookPath) :
    (((GetEditor cfg env look).err = none ∨
        (GetEditor cfg env look).err = some "Could not find a text editor") ∧
      ((GetBrowser cfg look).err = none ∨
        (GetBrowser cfg look).err = some "Could not find a way to open a browser") ∧
      ((GetHugo cfg look).err = none ∨
        (GetHugo cfg look).err = some "Could not find hugo executable") ∧
      ((GetGit cfg look).err = none ∨
        (GetGit cfg look).err = some "Could not find git executable")) ∧
    (((∀ c ∈ [cfg "editor", env "VISUAL", env "EDITOR", "editor", "vi", "nano"],
          ¬ Hit (look c)) →
        (GetEditor cfg env look).err = some "Could not find a text editor") ∧
      ((∀ c ∈ [cfg "browser", "open", "xdg-open", "x-www-browser", "firefox",
          "google-chrome-stable", "chromium-browser"], ¬ Hit (look c)) →
        (GetBrowser cfg look).err = some "Could not find a way to open a browser") ∧
      ((look (cfg "hugo")).err ≠ none →
        GetHugo cfg look = ⟨"", some "Could not find hugo executable"⟩) ∧
      ((look (cfg "git")).err ≠ none →
        GetGit cfg look = ⟨"", some "Could not find git executable"⟩)) ∧
    ("Could not find a text editor" ≠ "Could not find a way to open a browser" ∧
      "Could not find a text editor" ≠ "Could not find hugo executable" ∧
      "Could not find a text editor" ≠ "Could not find git executable" ∧
      "Could not find a way to open a browser" ≠ "Could not find hugo executable" ∧
      "Could not find a way to open a browser" ≠ "Could not find git executable" ∧
      "Could not find hugo executable" ≠ "Could not find git executable") := by
  refine ⟨⟨?_, ?_, ?_, ?_⟩, ⟨?_, ?_, ?_, ?_⟩, by decide⟩
  · exact lookLoop_err_cases look _ _ ""
  · exact lookLoop_err_cases look _ _ ""
  · unfold GetHugo
    by_cases h : (look (cfg "hugo")).err = none <;> simp [h]
  · unfold GetGit
    by_cases h : (look (cfg "git")).err = none <;> simp [h]
  · intro h
    exact lookLoop_no_hit look _ _ "" h
  · intro h
    exact lookLoop_no_hit look _ _ "" h
  · intro h
    simp [GetHugo, h]
  · intro h
    simp [GetGit, h]

/-- Claim C8 at a concrete input: nothing is on the search path and the editor
resolver fails with its fixed message. -/
theorem resolver_error_names_role_only_witness :
    (GetEditor cfgPlain envEditorVim lookNothing).err = some "Could not find a text editor" :=
  (resolver_error_names_role_only cfgPlain envEditorVim lookNothing).2.1.1
    (fun _ _ => by unfold lookNothing; decide)

/-! ## Empty paths and empty overrides -/

/-- Claim C2.  A nil error never comes with the empty path.  For `GetEditor` and
`GetBrowser` this holds for every lookup function whatever, one that succeeds
with the empty path included: the loop tests `path != ""`.  `GetHugo` and
`GetGit` hand on what `exec.LookPath` returned, which has a non-empty path
whenever its error is nil.  And an empty override is no hit: since
`exec.LookPath` does not find the empty name, `GetHugo` and `GetGit` fail on
it, and `GetEditor` and `GetBrowser` return what the remaining candidates
give. -/
theorem resolver_nil_error_path_nonempty (cfg : Viper) (env : Environ) (look : LookPath) :
    (((GetEditor cfg env look).err = none → (GetEditor cfg env look).path ≠ "") ∧
      ((GetBrowser cfg look).err = none → (GetBrowser cfg look).path ≠ "")) ∧
    (NilErrorHasPath look →
      ((GetHugo cfg look).err = none → (GetHugo cfg look).path ≠ "") ∧
      ((GetGit cfg look).err = none → (GetGit cfg look).path ≠ "")) ∧
    (EmptyNameNotFound look →
      (cfg "hugo" = "" → GetHugo cfg look = ⟨"", some "Could not find hugo executable"⟩) ∧
      (cfg "git" = "" → GetGit cfg look = ⟨"", some "Could not find git executable"⟩) ∧
      (cfg "editor" = "" →
        GetEditor cfg env look =
          lookLoop look "Could not find a text editor"
            [env "VISUAL", env "EDITOR", "editor", "vi", "nano"] "") ∧
      (cfg "browser" = "" →
        GetBrowser cfg look =
          lookLoop look "Could not find a way to open a browser"
            ["open", "xdg-open", "x-www-browser", "firefox", "google-chrome-stable",
              "chromium-browser"] "")) := by
  refine ⟨⟨?_, ?_⟩, ?_, ?_⟩
  · intro h
    obtain ⟨_, c, _, _, _, hc, hres⟩ := lookLoop_nil_err look _ _ "" h
    unfold GetEditor
    rw [hres]
    exact hc.2
  · intro h
    obtain ⟨_, c, _, _, _, hc, hres⟩ := lookLoop_nil_err look _ _ "" h
    unfold GetBrowser
    rw [hres]
    exact hc.2
  · intro hlook
    constructor
    · unfold GetHugo
      by_cases h : (look (cfg "hugo")).err = none
      · simpa [h] using hlook _ h
      · simp [h]
    · unfold GetGit
      by_cases h : (look (cfg "git")).err = none
      · simpa [h] using hlook _ h
      · simp [h]
  · intro hlook
    have hempty : ¬ Hit (look "") := fun hh => hlook hh.1
    have herr : (look "").err ≠ none := hlook
    refine ⟨?_, ?_, ?_, ?_⟩
    · intro hc
      simp [GetHugo, hc, herr]
    · intro hc
      simp [GetGit, hc, herr]
    · intro hc
      unfold GetEditor
      rw [hc]
      simp only [lookLoop, hempty, if_false]
    · intro hc
      unfold GetBrowser
      rw [hc]
      simp only [lookLoop, hempty, if_false]

/-- The lookup `lookGit` returns a nil error with `/usr/bin/git` only. -/
theorem lookGit_nil_error_has_path : NilErrorHasPath lookGit := by
  intro name h
  unfold lookGit at h ⊢
  by_cases hn : name = "git"
  · simp [hn]
  · simp [hn] at h

/-- Claim C2 at a concrete input: `git` is found, and the path returned with
the nil error is not empty. -/
theorem resolver_nil_error_path_nonempty_witness :
    (GetGit cfgPlain lookGit).path ≠ "" :=
  ((resolver_nil_error_path_nonempty cfgPlain (fun _ => "") lookGit).2.1
    lookGit_nil_error_has_path).2 (by decide)

/-! ## Run -/

/-- Claim C9.  When the process starts and exits with status 0, `Run` returns
nil: no `RunError`, no captured output, whatever the process wrote. -/
theorem Run_exit_zero (sys : System) (cmd : String) (cmdArgs : List String)
    (out errOut : String)
    (h : sys cmd (cmd :: cmdArgs) = .ran (.exited 0) out errOut) :
    Run sys (cmd :: cmdArgs) = .returned none := by
  simp [Run, Cmd.Run, Command, h]

/-- Claim C9 at a concrete input: `git status` exiting with status 0. -/
theorem Run_exit_zero_witness :
    Run sysClean ["/usr/bin/git", "status"] = .returned none :=
  Run_exit_zero sysClean "/usr/bin/git" ["status"] "On branch main" "" rfl

/-- Claim C3 at its failing input.  The process exits with status 3 after
writing `oops` to its error stream; `Run` returns a `RunError` with the tool
name and the exit code 3, but with the empty `Output`: `(*exec.Cmd).Run` does
not collect the error stream, only `(*exec.Cmd).Output` does. -/
theorem Run_drops_error_stream :
    sysExit3 "/bin/sh" ["/bin/sh", "-c", "echo oops >&2; exit 3"] = .ran (.exited 3) "" "oops\n" ∧
    Run sysExit3 ["/bin/sh", "-c", "echo oops >&2; exit 3"] =
      .returned (some ⟨"", 3, "/bin/sh"⟩) := by
  constructor <;> rfl

/-- What `Run` does on a non-zero exit, for every system: the `RunError` carries
`args[0]`, the exit status, and the empty `Output`. -/
theorem Run_exit_nonzero (sys : System) (cmd : String) (cmdArgs : List String)
    (n : Nat) (out errOut : String) (hn : n ≠ 0)
    (h : sys cmd (cmd :: cmdArgs) = .ran (.exited n) out errOut) :
    Run sys (cmd :: cmdArgs) = .returned (some ⟨"", (n : Int), cmd⟩) := by
  cases n with
  | zero => exact absurd rfl hn
  | succ k => simp [Run, Cmd.Run, Command, h, ExitError.ExitCode]

/-- The non-zero exit at a concrete input. -/
theorem Run_exit_nonzero_witness :
    Run sysExit3 ["/bin/false"] = .returned (some ⟨"", 3, "/bin/false"⟩) :=
  Run_exit_nonzero sysExit3 "/bin/false" [] 3 "" "oops\n" (by decide) rfl

/-- Claim C4 at its failing input.  The executable cannot be started; the error
of `(*exec.Cmd).Run` is no `*exec.ExitError`, and the type assertion in `Run`
panics: `Run` does not return. -/
theorem Run_panics_on_launch_failure :
    Run sysMissing ["/nonexistent/tool", "status"] =
      .panicked "interface conversion: error is not *exec.ExitError" := by
  rfl

/-- What `Run` does on a start failure, for every system and argument vector: it panics. -/
theorem Run_launch_failure (sys : System) (cmd : String) (cmdArgs : List String)
    (reason : String) (h : sys cmd (cmd :: cmdArgs) = .launchFailure reason) :
    Run sys (cmd :: cmdArgs) =
      .panicked "interface conversion: error is not *exec.ExitError" := by
  simp [Run, Cmd.Run, Command, h]

/-- The start failure at a concrete input. -/
theorem Run_launch_failure_witness :
    Run sysMissing ["hugo"] = .panicked "interface conversion: error is not *exec.ExitError" :=
  Run_launch_failure sysMissing "hugo" [] _ rfl

/-! ## Prompt -/

/-- Claim C10 at its failing input.  On an empty line, and on a line of white
space only, the trimmed answer is the empty string and `[0]` panics: `Prompt`
does not return false, it does not return. -/
theorem Prompt_blank_line_panics (caseTable : Char → Char) :
    Prompt caseTable ⟨"\n".toList, none⟩ = .panicked "index out of range [0] with length 0" ∧
    Prompt caseTable ⟨" \t \n".toList, none⟩ =
      .panicked "index out of range [0] with length 0" := by
  constructor <;> rfl

/-- On a line that is not blank `Prompt` returns, and it returns true exactly
when the first byte of the trimmed, lower-cased answer is `y`. -/
theorem Prompt_nonblank (caseTable : Char → Char) (resp : List Char) (c : Char)
    (rest : List Char) (h : ToLower caseTable (TrimSpace resp) = c :: rest) :
    Prompt caseTable ⟨resp, none⟩ = .returned (leadByte c == 0x79) := by
  simp [Prompt, byteAt0, h]

/-- The answer `Yes` at a concrete input. -/
theorem Prompt_nonblank_witness :
    Prompt id ⟨" Yes\n".toList, none⟩ = .returned true :=
  Prompt_nonblank id " Yes\n".toList (Char.ofNat 0x79) "es".toList (by decide)

end MessyNotes
